import Mathlib

/-!
Shallow embedding of the `soundreinforcements` propagation and
level-computation engine (outdoor sound propagation per ISO 9613-2),
together with theorems settling the specification claims.

Python floats are modelled by real numbers; numpy arrays of octave-band
values by lists of reals evaluated elementwise; `x ** 0.5` of a
nonnegative float by `Real.sqrt`; `np.log10` by `Real.logb 10`;
`np.round(x, 1)` by rounding `10 * x` to the nearest integer (numpy
breaks exact ties to the even integer while `round` rounds half up; no
statement below sits on an exact tie); the `np.float32` casts are
dropped (they preserve sign and value up to rounding, which no claim
below depends on). Python code that raises is modelled with `Except`.
-/

namespace SoundReinforcements

noncomputable section

/-! ### space.py -/

/-- A point of three dimensional space, as `space.Coordinate` holds it
(`self._values = [x, y, z]`). -/
structure Coordinate where
  x : ℝ
  y : ℝ
  z : ℝ

/-- `Coordinate.__abs__`: `(self.x**2 + self.y**2 + self.z**2)**0.5`. -/
def Coordinate.abs (c : Coordinate) : ℝ :=
  Real.sqrt (c.x ^ 2 + c.y ^ 2 + c.z ^ 2)

/-- `Coordinate.__add__`: componentwise sum. -/
def Coordinate.add (c o : Coordinate) : Coordinate :=
  ⟨c.x + o.x, c.y + o.y, c.z + o.z⟩

/-- `Coordinate.__sub__`: componentwise difference. -/
def Coordinate.sub (c o : Coordinate) : Coordinate :=
  ⟨c.x - o.x, c.y - o.y, c.z - o.z⟩

/-- `space.distance(p1, p2) = abs(p2 - p1)`. -/
def distance (p1 p2 : Coordinate) : ℝ :=
  (p2.sub p1).abs

/-- `space.distance_over_plane('xy', p1, p2)`: zero the z components of
both points, then take their distance. -/
def distance_over_plane_xy (p1 p2 : Coordinate) : ℝ :=
  distance ⟨p1.x, p1.y, 0⟩ ⟨p2.x, p2.y, 0⟩

/-- `Orientation._get_div`: the Euclidean norm of the raw component
list, `np.sum(np.array(vals)**2)**0.5`. -/
def get_div (x y z : ℝ) : ℝ :=
  Real.sqrt (x ^ 2 + y ^ 2 + z ^ 2)

/-- `Orientation.__init__(x, y, z)`: divide each component by
`_get_div([x, y, z])` and store the result as a `Coordinate`. -/
def Orientation.init (x y z : ℝ) : Coordinate :=
  ⟨x / get_div x y z, y / get_div x y z, z / get_div x y z⟩

/-- `Orientation.__iadd__`: add the other vector componentwise, then
divide the sum by its own norm. -/
def Orientation.iadd (o other : Coordinate) : Coordinate :=
  Orientation.init (o.x + other.x) (o.y + other.y) (o.z + other.z)

/-- `Orientation.__isub__`: subtract the other vector componentwise,
then divide the difference by its own norm. -/
def Orientation.isub (o other : Coordinate) : Coordinate :=
  Orientation.init (o.x - other.x) (o.y - other.y) (o.z - other.z)

/-! ### level.py / levelmaths.py: the dB-domain conversions -/

/-- The `dB_round` decorator: `np.round(dBvalue, 1)`, i.e. round to one
decimal place. -/
def dB_round (x : ℝ) : ℝ :=
  ((round (10 * x) : ℤ) : ℝ) / 10

/-- The body of `spl_from_pressure` before its `@dB_round` decorator:
`20*np.log10(pressure/2e-5)`. -/
def spl_from_pressure_body (pressure : ℝ) : ℝ :=
  20 * Real.logb 10 (pressure / 2e-5)

/-- `level.spl_from_pressure` as exported: the decorated (rounded)
conversion. -/
def spl_from_pressure (pressure : ℝ) : ℝ :=
  dB_round (spl_from_pressure_body pressure)

/-- `level.pressure_from_spl`: `2e-5 * 10**(spl/20)`. -/
def pressure_from_spl (spl : ℝ) : ℝ :=
  2e-5 * (10 : ℝ) ^ (spl / 20)

/-- The body of `swl_from_power` before its `@dB_round` decorator:
`10*np.log10(power/1e-12)`. -/
def swl_from_power_body (power : ℝ) : ℝ :=
  10 * Real.logb 10 (power / 1e-12)

/-- `level.swl_from_power` as exported: the decorated (rounded)
conversion. -/
def swl_from_power (power : ℝ) : ℝ :=
  dB_round (swl_from_power_body power)

/-- `level.power_from_swl`: `1e-12 * (10**(swl/10))`. -/
def power_from_swl (swl : ℝ) : ℝ :=
  1e-12 * (10 : ℝ) ^ (swl / 10)

/-- The body of `sil_from_intensity` before its `@dB_round` decorator:
`10*np.log10(intensity/1e-12)`. -/
def sil_from_intensity_body (intensity : ℝ) : ℝ :=
  10 * Real.logb 10 (intensity / 1e-12)

/-- `level.sil_from_intensity` as exported: the decorated (rounded)
conversion. -/
def sil_from_intensity (intensity : ℝ) : ℝ :=
  dB_round (sil_from_intensity_body intensity)

/-- `level.intensity_from_sil`: `1e-12 * 10**(sil/10)`. -/
def intensity_from_sil (sil : ℝ) : ℝ :=
  1e-12 * (10 : ℝ) ^ (sil / 10)

/-- `level.intensity_from_power`: `power/(4*np.pi*distance**2)`. -/
def intensity_from_power (power dist : ℝ) : ℝ :=
  power / (4 * Real.pi * dist ^ 2)

/-- `levelmaths.spl_from_swl(swl, Q, distance)` (also `level._spl_from_swl`):
`swl - abs(10*log10(Q/(4*pi*distance**2)))`, rounded by `@dB_round`. -/
def spl_from_swl_Q (swl Q dist : ℝ) : ℝ :=
  dB_round (swl - |10 * Real.logb 10 (Q / (4 * Real.pi * dist ^ 2))|)

/-! ### attenuations.py -/

/-- `attenuations.divergence(r) = 20 * log10(r) + 11`. -/
def divergence (r : ℝ) : ℝ :=
  20 * Real.logb 10 r + 11

/-- `attenuations.atmosphere(a, r) = a * r`, per frequency band. -/
def atmosphere (a r : ℝ) : ℝ :=
  a * r

/-- Inner helper `dp(d) = 1 - exp(-d / 50)` of `attenuations.ground`. -/
def dp (d : ℝ) : ℝ :=
  1 - Real.exp (-d / 50)

/-- Inner helper `c125(h, d)` of `attenuations.ground`. -/
def c125 (h d : ℝ) : ℝ :=
  1.5 + 3 * Real.exp (-0.12 * (h - 5) ^ 2) * dp d
    + 5.7 * Real.exp (-0.09 * h ^ 2) * (1 - Real.exp (-2.8e-6 * d ^ 2))

/-- Inner helper `c250(h, d)` of `attenuations.ground`. -/
def c250 (h d : ℝ) : ℝ :=
  1.5 + 8.6 * Real.exp (-0.09 * h ^ 2) * dp d

/-- Inner helper `c500(h, d)` of `attenuations.ground`. -/
def c500 (h d : ℝ) : ℝ :=
  1.5 + 14 * Real.exp (-0.46 * h ^ 2) * dp d

/-- Inner helper `c1000(h, d)` of `attenuations.ground`. -/
def c1000 (h d : ℝ) : ℝ :=
  1.5 + 5 * Real.exp (-0.9 * h ^ 2) * dp d

/-- Inner helper `q(hr, hs, d)` of `attenuations.ground`:
with `m = 30 * (hr + hs)`, it is `1 - m / d` if `d > m`, else `0`. -/
def groundQ (hr hs d : ℝ) : ℝ :=
  if 30 * (hr + hs) < d then 1 - 30 * (hr + hs) / d else 0

/-- The local array `Ar` of `attenuations.ground`: the receiver-side
per-band terms, bands 63, 125, 250, 500, 1000, 2000, 4000, 8000 Hz. -/
def ground_Ar (recG recHeight projDist : ℝ) : List ℝ :=
  [-1.5, -1.5 + recG * c125 recHeight projDist, -1.5 + recG * c250 recHeight projDist,
    -1.5 + recG * c500 recHeight projDist, -1.5 + recG * c1000 recHeight projDist,
    -1.5 * (1 - recG), -1.5 * (1 - recG), -1.5 * (1 - recG)]

/-- The local array `As` of `attenuations.ground`: the source-side
per-band terms, same band layout as `ground_Ar`. -/
def ground_As (srcG srcHeight projDist : ℝ) : List ℝ :=
  [-1.5, -1.5 + srcG * c125 srcHeight projDist, -1.5 + srcG * c250 srcHeight projDist,
    -1.5 + srcG * c500 srcHeight projDist, -1.5 + srcG * c1000 srcHeight projDist,
    -1.5 * (1 - srcG), -1.5 * (1 - srcG), -1.5 * (1 - srcG)]

/-- The local array `Am` of `attenuations.ground`:
`-3 * q * np.array([1] + 7 * [1 - meanG])`. -/
def ground_Am (q meanG : ℝ) : List ℝ :=
  ([1] ++ List.replicate 7 (1 - meanG)).map fun g => -3 * q * g

/-- `attenuations.ground(srcpos, srcG, recpos, recG, meanG)`: the
horizontal distance is the xy-projected distance of the two positions,
the heights are their z components, and the result is `Ar + As + Am`
elementwise over the eight bands. -/
def ground (srcpos : Coordinate) (srcG : ℝ) (recpos : Coordinate) (recG meanG : ℝ) :
    List ℝ :=
  List.zipWith (· + ·)
    (List.zipWith (· + ·)
      (ground_Ar recG recpos.z (distance_over_plane_xy srcpos recpos))
      (ground_As srcG srcpos.z (distance_over_plane_xy srcpos recpos)))
    (ground_Am (groundQ recpos.z srcpos.z (distance_over_plane_xy srcpos recpos)) meanG)

/-- The parameter list of `attenuations.ground` as the source declares
it: `def ground(srcpos, srcG, recpos, recG, meanG)`. -/
def ground_params : List String :=
  ["srcpos", "srcG", "recpos", "recG", "meanG"]

/-- The positional argument list that `level.spl_from_swl` passes to
`ground`: `ground(distgr, srch, srcG, rech, recG, meanG)`. -/
def spl_from_swl_ground_args : List String :=
  ["distgr", "srch", "srcG", "rech", "recG", "meanG"]

/-! ### air.py -/

/-- The dictionary `Air.get_properties` returns, with the source's local
variable names as field names (the dict keys rename `expans` to the
specific heat ratio and `velSom` to the sound speed). -/
structure AirProperties where
  soundSpeed : ℝ
  density : ℝ
  viscosity : ℝ
  thermalConduct : ℝ
  expans : ℝ
  prandtl : ℝ
  specHeatCP : ℝ
  specHeatCV : ℝ
  impedance : ℝ

/-- `Air.get_properties(temp, hum, atm)`: the empirical fits for the
acoustically relevant air properties. `T` is the source's `temp` after
`temp += 273.16`; `(...)**0.5` is `Real.sqrt` (the radicand is positive
throughout the validated input ranges). -/
def Air.get_properties (temp hum atm : ℝ) : AirProperties :=
  let thermCond : ℝ := 0.026
  let T := temp + 273.16
  let airConst : ℝ := 287.031
  let h2oConst : ℝ := 461.521
  let Pierce := 0.0658 * T ^ 3 - 53.7558 * T ^ 2 + 14703.8127 * T - 1345485.0465
  let viscos := 7.72488e-8 * T - 5.95238e-11 * T ^ 2 + 2.71368e-14 * T ^ 3
  let constPress := 4168.8 * (0.249679 - 7.55179e-5 * T + 1.69194e-7 * T ^ 2
    - 6.46128e-11 * T ^ 3)
  let constVol := constPress - airConst
  let prandtl := viscos * constPress / thermCond
  let expans := constPress / constVol
  let dens := atm / (airConst * T) - (1 / airConst - 1 / h2oConst) * hum / 100 * Pierce / T
  let velSom := Real.sqrt (expans * atm / dens)
  ⟨velSom, dens, viscos, thermCond, expans, prandtl, constPress, constVol, velSom * dens⟩

/-- `Air.get_absorption(temp, hum, atm, freq)` evaluated at one entry of
the frequency array: the two-relaxation-process absorption model,
returning the pair `(absorp_m, absorp_dBm)` of coefficients in 1/m and
dB/m. -/
def Air.get_absorption (temp hum atm freq : ℝ) : ℝ × ℝ :=
  let T0 : ℝ := 293.15
  let T01 : ℝ := 273.16
  let T := temp + 273.15
  let ps0 : ℝ := 1.01325e5
  let Csat := -6.8346 * (T01 / T) ^ (1.261 : ℝ) + 4.6151
  let rhosat := (10 : ℝ) ^ Csat
  let h := rhosat * hum * ps0 / atm
  let FrN2 := atm / ps0 * (T0 / T) ^ (0.5 : ℝ)
    * (9 + 280 * h * Real.exp (-4.17 * ((T0 / T) ^ ((1 : ℝ) / 3) - 1)))
  let FrO2 := atm / ps0 * (24 + 4.04e4 * h * (0.02 + h) / (0.391 + h))
  let alpha := freq * freq * (1.84e-11 / ((T0 / T) ^ (0.5 : ℝ) * atm / ps0)
    + (T / T0) ^ (-2.5 : ℝ)
      * (0.10680 * Real.exp (-3352 / T) * FrN2 / (freq * freq + FrN2 * FrN2)
        + 0.01278 * Real.exp (-2293.1 / T) * FrO2 / (freq * freq + FrO2 * FrO2)))
  let absorp_dBm := 20 * alpha / Real.log 10
  let absorp_m := absorp_dBm / (20 * Real.logb 10 (Real.exp 1))
  (absorp_m, absorp_dBm)

/-- The field a constructor-time `ValueError` of `Air` names: the
setter whose range check failed. -/
inductive AirField
  | temperature
  | humidity
  | atmPressure
deriving DecidableEq

/-- The valid range each `Air` setter's `ValueError` message states:
temperature 0..50 °C, humidity 0..100 %, pressure 90..115 kPa. -/
def AirField.validRange : AirField → ℝ × ℝ
  | .temperature => (0, 50)
  | .humidity => (0, 100)
  | .atmPressure => (90000, 115000)

/-- The state an `Air` instance holds after `__init__`: the validated
base parameters, the frequency array, and the absorption arrays that
`calc_absorption` stores in `_props["absorb"]` and
`_props["absorb_dB"]`. -/
structure Air where
  temp : ℝ
  hum : ℝ
  atm : ℝ
  freqs : List ℝ
  absorb : List ℝ
  absorb_dB : List ℝ

/-- `Air.__init__(temp, hum, atm, freqs)` restricted to numeric inputs:
the three setters run in order, each raising `ValueError` when its
range check fails (`temp < 0 or temp > 50`, `hum < 0 or hum > 100`,
`atm < 90e3 or atm > 115e3`); then `calc_properties` and
`calc_absorption` fill the derived state. -/
def Air.init (temp hum atm : ℝ) (freqs : List ℝ) : Except AirField Air :=
  if temp < 0 ∨ 50 < temp then .error .temperature
  else if hum < 0 ∨ 100 < hum then .error .humidity
  else if atm < 90000 ∨ 115000 < atm then .error .atmPressure
  else .ok
    { temp := temp, hum := hum, atm := atm, freqs := freqs
      absorb := freqs.map fun f => (Air.get_absorption temp hum atm f).1
      absorb_dB := freqs.map fun f => (Air.get_absorption temp hum atm f).2 }

/-- `Air.soundSpeed`: `_props["soundSpeed"]`, as `calc_properties`
stores it. -/
def Air.soundSpeed (a : Air) : ℝ :=
  (Air.get_properties a.temp a.hum a.atm).soundSpeed

/-- `Air.impedance`: `_props["impedance"]`, as `calc_properties` stores
it. -/
def Air.impedance (a : Air) : ℝ :=
  (Air.get_properties a.temp a.hum a.atm).impedance

/-- The `ValueError` of `Air.absorption` for an unknown unit: its
message names the offending unit
(`f"Unit must be '1/m' or 'dB/m', found: ..."`). -/
structure UnitValueError where
  unit : String
deriving DecidableEq

/-- `Air.absorption(unit)`: the stored array `_props["absorb"]` for
`'1/m'`, the stored array `_props["absorb_dB"]` for `'dB/m'`, and a
`ValueError` naming the unit otherwise; nothing is recomputed. -/
def Air.absorption (a : Air) (unit : String) : Except UnitValueError (List ℝ) :=
  if unit = "1/m" then .ok a.absorb
  else if unit = "dB/m" then .ok a.absorb_dB
  else .error ⟨unit⟩

/-! ### sources.py and receivers.py -/

/-- `sources.Source`: an `Object3D` carrying a sound power and a
directivity factor (the orientation plays no role in the claims). -/
structure Source where
  position : Coordinate
  power : ℝ
  directivity : ℝ

/-- The `Source.swl` property: `swl_from_power(self.power)`. -/
def Source.swl (s : Source) : ℝ :=
  swl_from_power s.power

/-- `receivers.Receiver`: an `Object3D` evaluated against sources. -/
structure Receiver where
  position : Coordinate

/-- `Receiver.distance_from_source`: `distance(self.position,
source.position)`. -/
def Receiver.distance_from_source (r : Receiver) (s : Source) : ℝ :=
  distance r.position s.position

/-- `Receiver.ground_distance_from_source`:
`distance_over_plane('xy', self.position, source.position)`. -/
def Receiver.ground_distance_from_source (r : Receiver) (s : Source) : ℝ :=
  distance_over_plane_xy r.position s.position

/-- The nine positional arguments of the call
`spl_from_swl(source.swl, dist, distgr, source.position.z, 0.6,
self.position.z, 0.8, 0.5, air.absorption('dB/m'))` inside
`Receiver.spl_from_source`, matched to the parameter names of
`level.spl_from_swl`. -/
structure SplSwlArgs where
  swl : ℝ
  dist : ℝ
  distgr : ℝ
  srch : ℝ
  srcG : ℝ
  rech : ℝ
  recG : ℝ
  meanG : ℝ
  airabs : List ℝ

/-- `Receiver.spl_from_source(source, air)` as the source writes it: the
arguments it hands to `level.spl_from_swl`. The distance arguments come
from the two distance methods, the heights from the two z coordinates,
the ground factors are the literals 0.6, 0.8 and 0.5, and the
absorption array is `air.absorption('dB/m')`, the stored dB/m array.
(The call itself never completes: see `spl_from_swl_ground_call_mismatch`.) -/
def Receiver.spl_from_source_call (r : Receiver) (s : Source) (air : Air) : SplSwlArgs :=
  ⟨s.swl, r.distance_from_source s, r.ground_distance_from_source s,
    s.position.z, 0.6, r.position.z, 0.8, 0.5, air.absorb_dB⟩

/-- Modelled from the spec: `receivers.py` imports `pressure_from_power`
from `level`, but no module of the repository defines it. The spec says
the magnitude of `Receiver.pressure_from_source` comes from the power,
the air impedance and the distance; the free-field point-source
magnitude with those three inputs is
`sqrt(power * impedance / (4 * pi * dist^2))`. -/
def pressure_from_power (power dist impedance : ℝ) : ℝ :=
  Real.sqrt (power * impedance / (4 * Real.pi * dist ^ 2))

/-- `Receiver.pressure_from_source(source, air)` at one entry `freq` of
`air.frequencies`: `k = 2*pi*freq/air.soundSpeed`, `dist` the 3D
distance, and the result `pressure_from_power(source.power, dist,
air.impedance) * exp(-1j * k * dist)`. -/
def Receiver.pressure_from_source (r : Receiver) (s : Source) (air : Air) (freq : ℝ) : ℂ :=
  ((pressure_from_power s.power (distance r.position s.position) air.impedance : ℝ) : ℂ)
    * Complex.exp (-Complex.I * ((2 * Real.pi * freq / air.soundSpeed : ℝ) : ℂ)
      * ((distance r.position s.position : ℝ) : ℂ))

/-! ### Raising behaviour of the level conversions

The spec postulates a `DomainError` for nonpositive arguments. No module
of the repository defines such an error, and none of the conversion
functions contains a `raise` or any argument check: each one evaluates
its formula on whatever it receives (numpy turns a nonpositive `log10`
argument or a zero denominator into `nan`/`inf` values with a warning,
it does not raise). The `Except` wrappers below record that raising
behaviour: their error branch is unreachable. -/

/-- The error type the spec's error-handling section postulates for the
level conversions. The source never defines or raises it. -/
inductive DomainError
  | raised
deriving DecidableEq

/-- Calling `level.spl_from_pressure`: no check precedes the formula. -/
def spl_from_pressure_run (pressure : ℝ) : Except DomainError ℝ :=
  .ok (spl_from_pressure pressure)

/-- Calling `level.swl_from_power`: no check precedes the formula. -/
def swl_from_power_run (power : ℝ) : Except DomainError ℝ :=
  .ok (swl_from_power power)

/-- Calling `level.sil_from_intensity`: no check precedes the formula. -/
def sil_from_intensity_run (intensity : ℝ) : Except DomainError ℝ :=
  .ok (sil_from_intensity intensity)

/-- Calling `level.intensity_from_power`: no check precedes the
formula, the distance included. -/
def intensity_from_power_run (power dist : ℝ) : Except DomainError ℝ :=
  .ok (intensity_from_power power dist)

/-- Calling `levelmaths.spl_from_swl` (the divergence-based SPL
formula): no check precedes the formula, the distance included. -/
def spl_from_swl_Q_run (swl Q dist : ℝ) : Except DomainError ℝ :=
  .ok (spl_from_swl_Q swl Q dist)

/-! ### Theorems -/

/-- Claim C1 (code evaluation): the call `ground(distgr, srch, srcG,
rech, recG, meanG)` inside `level.spl_from_swl` passes six positional
arguments to `attenuations.ground`, whose signature declares five
parameters, so the call can never bind and `Receiver.spl_from_source`
never computes `SWL - Adiv - Aatm - Agr`. -/
theorem spl_from_swl_ground_call_mismatch :
    spl_from_swl_ground_args.length ≠ ground_params.length ∧
    spl_from_swl_ground_args.length = 6 ∧ ground_params.length = 5 := by
  decide

/-- Claim C9: `Receiver.spl_from_source` hands `level.spl_from_swl` the
literal ground factors 0.6 (source side), 0.8 (receiver side) and 0.5
(mean ground) for every source, receiver and air; its signature offers
the caller no parameter that could change them. -/
theorem spl_from_source_ground_factors_fixed :
    ∀ (r : Receiver) (s : Source) (air : Air),
      (r.spl_from_source_call s air).srcG = 0.6 ∧
      (r.spl_from_source_call s air).recG = 0.8 ∧
      (r.spl_from_source_call s air).meanG = 0.5 := by
  intro r s air
  exact ⟨rfl, rfl, rfl⟩

/-- Claim C10: `Air.absorption` returns the stored `absorb` array for
the exact unit string `'1/m'`, the stored `absorb_dB` array for
`'dB/m'`, and for every other unit string raises a `ValueError` naming
that unit. -/
theorem air_absorption_unit_dispatch :
    ∀ (a : Air) (unit : String),
      Air.absorption a "1/m" = .ok a.absorb ∧
      Air.absorption a "dB/m" = .ok a.absorb_dB ∧
      (unit ≠ "1/m" → unit ≠ "dB/m" → Air.absorption a unit = .error ⟨unit⟩) := by
  intro a unit
  refine ⟨rfl, ?_, ?_⟩
  · unfold Air.absorption
    rw [if_neg (by decide), if_pos rfl]
  · intro h1 h2
    unfold Air.absorption
    rw [if_neg h1, if_neg h2]

/-- Witness for claim C10 at the concrete unit `"m"` and a concrete
air snapshot. -/
theorem air_absorption_unit_dispatch_witness :
    Air.absorption ⟨20, 50, 101325, [], [], []⟩ "m" = .error ⟨"m"⟩ ∧
    Air.absorption ⟨20, 50, 101325, [], [], []⟩ "1/m" = .ok [] := by
  have h := air_absorption_unit_dispatch ⟨20, 50, 101325, [], [], []⟩ "m"
  exact ⟨h.2.2 (by decide) (by decide), h.1⟩

/-- Claim C5, counterexample: none of the level conversions raises on a
nonpositive argument — each call returns a value (`.ok`), so the claimed
`DomainError` for `pressure ≤ 0`, `power ≤ 0`, `intensity ≤ 0` or
`distance ≤ 0` never happens. -/
theorem level_no_domain_error_cx :
    spl_from_pressure_run (-1) = .ok (spl_from_pressure (-1)) ∧
    swl_from_power_run 0 = .ok (swl_from_power 0) ∧
    sil_from_intensity_run (-2) = .ok (sil_from_intensity (-2)) ∧
    intensity_from_power_run 1 0 = .ok (intensity_from_power 1 0) ∧
    spl_from_swl_Q_run 100 2 (-1) = .ok (spl_from_swl_Q 100 2 (-1)) := by
  exact ⟨rfl, rfl, rfl, rfl, rfl⟩

/-- Claim C5, amended: the level conversions perform no domain
validation at all — for every real argument, nonpositive values and
zero distances included, each returns its formula's value and never
raises a `DomainError` (no such error exists in the source). -/
theorem level_conversions_never_raise :
    ∀ p P I swl Q d : ℝ,
      spl_from_pressure_run p = .ok (spl_from_pressure p) ∧
      swl_from_power_run P = .ok (swl_from_power P) ∧
      sil_from_intensity_run I = .ok (sil_from_intensity I) ∧
      intensity_from_power_run P d = .ok (intensity_from_power P d) ∧
      spl_from_swl_Q_run swl Q d = .ok (spl_from_swl_Q swl Q d) := by
  intro p P I swl Q d
  exact ⟨rfl, rfl, rfl, rfl, rfl⟩

/-- Claim C6: constructing an `Air` with temperature outside 0..50 °C,
humidity outside 0..100 %, or pressure outside 90000..115000 Pa raises
a `ValueError` identifying the offending field, whose documented valid
range is the one claimed; inside all three ranges construction
succeeds. -/
theorem air_init_validation :
    ∀ (t h a : ℝ) (fs : List ℝ),
      ((t < 0 ∨ 50 < t) → Air.init t h a fs = .error .temperature) ∧
      (0 ≤ t → t ≤ 50 → (h < 0 ∨ 100 < h) → Air.init t h a fs = .error .humidity) ∧
      (0 ≤ t → t ≤ 50 → 0 ≤ h → h ≤ 100 → (a < 90000 ∨ 115000 < a) →
        Air.init t h a fs = .error .atmPressure) ∧
      (0 ≤ t → t ≤ 50 → 0 ≤ h → h ≤ 100 → 90000 ≤ a → a ≤ 115000 →
        ∃ air, Air.init t h a fs = .ok air) ∧
      AirField.validRange .temperature = (0, 50) ∧
      AirField.validRange .humidity = (0, 100) ∧
      AirField.validRange .atmPressure = (90000, 115000) := by
  intro t h a fs
  refine ⟨?_, ?_, ?_, ?_, rfl, rfl, rfl⟩
  · intro ht
    unfold Air.init
    rw [if_pos ht]
  · intro ht1 ht2 hh
    unfold Air.init
    rw [if_neg (by push_neg; exact ⟨ht1, ht2⟩), if_pos hh]
  · intro ht1 ht2 hh1 hh2 ha
    unfold Air.init
    rw [if_neg (by push_neg; exact ⟨ht1, ht2⟩), if_neg (by push_neg; exact ⟨hh1, hh2⟩),
      if_pos ha]
  · intro ht1 ht2 hh1 hh2 ha1 ha2
    have hok : Air.init t h a fs = .ok
        { temp := t, hum := h, atm := a, freqs := fs
          absorb := fs.map fun f => (Air.get_absorption t h a f).1
          absorb_dB := fs.map fun f => (Air.get_absorption t h a f).2 } := by
      unfold Air.init
      rw [if_neg (by push_neg; exact ⟨ht1, ht2⟩), if_neg (by push_neg; exact ⟨hh1, hh2⟩),
        if_neg (by push_neg; exact ⟨ha1, ha2⟩)]
    exact ⟨_, hok⟩

/-- Witness for claim C6 at concrete out-of-range and in-range
parameter values. -/
theorem air_init_validation_witness :
    Air.init (-1) 50 101325 [] = .error .temperature ∧
    Air.init 20 120 101325 [] = .error .humidity ∧
    Air.init 20 50 80000 [] = .error .atmPressure ∧
    ∃ air, Air.init 20 50 101325 [1000] = .ok air := by
  refine ⟨(air_init_validation (-1) 50 101325 []).1 (by norm_num),
    (air_init_validation 20 120 101325 []).2.1 (by norm_num) (by norm_num) (by norm_num),
    (air_init_validation 20 50 80000 []).2.2.1 (by norm_num) (by norm_num) (by norm_num)
      (by norm_num) (by norm_num),
    (air_init_validation 20 50 101325 [1000]).2.2.2.1 (by norm_num) (by norm_num)
      (by norm_num) (by norm_num) (by norm_num) (by norm_num)⟩

/-- The `Am` array written out: `[1] + 7 * [1 - meanG]` scaled by
`-3 * q`. -/
theorem ground_Am_eq (q g : ℝ) :
    ground_Am q g = [-3 * q * 1, -3 * q * (1 - g), -3 * q * (1 - g), -3 * q * (1 - g),
      -3 * q * (1 - g), -3 * q * (1 - g), -3 * q * (1 - g), -3 * q * (1 - g)] :=
  rfl

/-- Claim C4: in `attenuations.ground` the mean-ground factor `q` is 0
whenever `d ≤ 30 * (hr + hs)` — in particular at `d = 0` (heights
summing to a nonnegative value) — and `1 - 30 * (hr + hs) / d`
otherwise; `Am` is `-3 q` in the 63 Hz band and `-3 q (1 - Gm)` in the
seven other bands; and the returned total is `As + Ar + Am` per band. -/
theorem ground_q_mean_total :
    ∀ (hr hs d q meanG srcG recG : ℝ) (srcpos recpos : Coordinate),
      (d ≤ 30 * (hr + hs) → groundQ hr hs d = 0) ∧
      (0 ≤ hr + hs → groundQ hr hs 0 = 0) ∧
      (30 * (hr + hs) < d → groundQ hr hs d = 1 - 30 * (hr + hs) / d) ∧
      (ground_Am q meanG).getD 0 0 = -3 * q ∧
      (∀ i : ℕ, 0 < i → i < 8 →
        (ground_Am q meanG).getD i 0 = -3 * q * (1 - meanG)) ∧
      (∀ i : ℕ, i < 8 →
        (ground srcpos srcG recpos recG meanG).getD i 0 =
          (ground_As srcG srcpos.z (distance_over_plane_xy srcpos recpos)).getD i 0 +
          (ground_Ar recG recpos.z (distance_over_plane_xy srcpos recpos)).getD i 0 +
          (ground_Am (groundQ recpos.z srcpos.z (distance_over_plane_xy srcpos recpos))
            meanG).getD i 0) := by
  intro hr hs d q meanG srcG recG srcpos recpos
  refine ⟨?_, ?_, ?_, ?_, ?_, ?_⟩
  · intro hle
    unfold groundQ
    rw [if_neg (not_lt.mpr hle)]
  · intro hpos
    unfold groundQ
    rw [if_neg (not_lt.mpr (by linarith))]
  · intro hlt
    unfold groundQ
    rw [if_pos hlt]
  · rw [ground_Am_eq]
    norm_num
  · intro i h1 h2
    interval_cases i <;> simp [ground_Am_eq]
  · intro i hi
    interval_cases i <;>
      (unfold ground ground_Ar ground_As; rw [ground_Am_eq]; simp [List.getD]) <;> ring

/-- Witness for claim C4 at concrete heights, distances, ground
factors and positions. -/
theorem ground_q_mean_total_witness :
    groundQ 1 2 10 = 0 ∧ groundQ 1 2 0 = 0 ∧
    groundQ 1 2 100 = 1 - 30 * (1 + 2) / 100 ∧
    (ground_Am 1 (1 / 2)).getD 1 0 = -3 * 1 * (1 - 1 / 2) ∧
    (ground ⟨0, 0, 1⟩ (3 / 5) ⟨3, 4, 2⟩ (4 / 5) (1 / 2)).getD 0 0 =
      (ground_As (3 / 5) (Coordinate.mk 0 0 1).z
        (distance_over_plane_xy ⟨0, 0, 1⟩ ⟨3, 4, 2⟩)).getD 0 0 +
      (ground_Ar (4 / 5) (Coordinate.mk 3 4 2).z
        (distance_over_plane_xy ⟨0, 0, 1⟩ ⟨3, 4, 2⟩)).getD 0 0 +
      (ground_Am (groundQ (Coordinate.mk 3 4 2).z (Coordinate.mk 0 0 1).z
        (distance_over_plane_xy ⟨0, 0, 1⟩ ⟨3, 4, 2⟩)) (1 / 2)).getD 0 0 := by
  have H1 := ground_q_mean_total 1 2 10 1 (1 / 2) (3 / 5) (4 / 5) ⟨0, 0, 1⟩ ⟨3, 4, 2⟩
  have H2 := ground_q_mean_total 1 2 100 1 (1 / 2) (3 / 5) (4 / 5) ⟨0, 0, 1⟩ ⟨3, 4, 2⟩
  exact ⟨H1.1 (by norm_num), H1.2.1 (by norm_num), H2.2.2.1 (by norm_num),
    H1.2.2.2.2.1 1 (by norm_num) (by norm_num), H1.2.2.2.2.2 0 (by norm_num)⟩

/-- The norm of a vector divided by its own norm is 1 whenever the
vector is not the zero vector. -/
theorem abs_orientation_init (x y z : ℝ) (h : ¬(x = 0 ∧ y = 0 ∧ z = 0)) :
    (Orientation.init x y z).abs = 1 := by
  have hS : x ^ 2 + y ^ 2 + z ^ 2 ≠ 0 := by
    intro h0
    apply h
    have hx : x ^ 2 = 0 := le_antisymm (by nlinarith [sq_nonneg y, sq_nonneg z]) (sq_nonneg x)
    have hy : y ^ 2 = 0 := le_antisymm (by nlinarith [sq_nonneg x, sq_nonneg z]) (sq_nonneg y)
    have hz : z ^ 2 = 0 := le_antisymm (by nlinarith [sq_nonneg x, sq_nonneg y]) (sq_nonneg z)
    exact ⟨by nlinarith, by nlinarith, by nlinarith⟩
  have hSpos : 0 < x ^ 2 + y ^ 2 + z ^ 2 := lt_of_le_of_ne (by positivity) (Ne.symm hS)
  unfold Orientation.init Coordinate.abs get_div
  rw [div_pow, div_pow, div_pow, div_add_div_same, div_add_div_same,
    Real.sq_sqrt hSpos.le, div_self hS, Real.sqrt_one]

/-- Claim C8: an `Orientation` built from any non-zero direction has
Euclidean norm exactly 1 (the real-number model of "within floating
tolerance"), and keeps norm 1 after an in-place `+=` or `-=` whose
resulting vector is non-zero. -/
theorem orientation_norm_one :
    ∀ (x y z : ℝ) (o v : Coordinate),
      (¬(x = 0 ∧ y = 0 ∧ z = 0) → (Orientation.init x y z).abs = 1) ∧
      (¬(o.x + v.x = 0 ∧ o.y + v.y = 0 ∧ o.z + v.z = 0) →
        (Orientation.iadd o v).abs = 1) ∧
      (¬(o.x - v.x = 0 ∧ o.y - v.y = 0 ∧ o.z - v.z = 0) →
        (Orientation.isub o v).abs = 1) := by
  intro x y z o v
  exact ⟨abs_orientation_init x y z, abs_orientation_init _ _ _, abs_orientation_init _ _ _⟩

/-- Witness for claim C8 at the concrete direction (3, 4, 0) and
updates of (1, 0, 0) by (0, 1, 0). -/
theorem orientation_norm_one_witness :
    (Orientation.init 3 4 0).abs = 1 ∧
    (Orientation.iadd ⟨1, 0, 0⟩ ⟨0, 1, 0⟩).abs = 1 ∧
    (Orientation.isub ⟨1, 0, 0⟩ ⟨0, 1, 0⟩).abs = 1 := by
  have H := orientation_norm_one 3 4 0 ⟨1, 0, 0⟩ ⟨0, 1, 0⟩
  exact ⟨H.1 (by norm_num), H.2.1 (by norm_num), H.2.2 (by norm_num)⟩

/-- Claim C3: `Receiver.pressure_from_source` returns the complex
pressure whose phase factor is `exp(-j k r)` with
`k = 2 pi f / air.soundSpeed` and `r` the 3D source-receiver distance,
and whose magnitude is `pressure_from_power` of the source power, the
distance and the air impedance. -/
theorem pressure_from_source_phase_magnitude :
    ∀ (r : Receiver) (s : Source) (air : Air) (freq : ℝ),
      r.pressure_from_source s air freq =
        ((pressure_from_power s.power (distance r.position s.position) air.impedance : ℝ) : ℂ)
          * Complex.exp (-Complex.I
            * ((2 * Real.pi * freq / air.soundSpeed : ℝ) : ℂ)
            * ((distance r.position s.position : ℝ) : ℂ)) ∧
      Complex.abs (r.pressure_from_source s air freq) =
        pressure_from_power s.power (distance r.position s.position) air.impedance := by
  intro r s air freq
  refine ⟨rfl, ?_⟩
  unfold Receiver.pressure_from_source
  rw [map_mul, Complex.abs_ofReal, Complex.abs_exp]
  have hre : (-Complex.I * ((2 * Real.pi * freq / air.soundSpeed : ℝ) : ℂ)
      * ((distance r.position s.position : ℝ) : ℂ)).re = 0 := by
    simp [Complex.mul_re, Complex.mul_im]
  rw [hre, Real.exp_zero, mul_one]
  exact abs_of_nonneg (Real.sqrt_nonneg _)

/-- Both absorption coefficients are nonnegative: every factor of the
two-relaxation formula is a product, quotient or sum of nonnegative
terms once temperature, humidity and pressure are physically valid. -/
theorem get_absorption_nonneg (t h a f : ℝ) (ht : 0 ≤ t) (hh : 0 ≤ h) (ha : 0 < a) :
    0 ≤ (Air.get_absorption t h a f).1 ∧ 0 ≤ (Air.get_absorption t h a f).2 := by
  have hlogb : Real.logb 10 (Real.exp 1) = 1 / Real.log 10 := by
    rw [Real.logb, Real.log_exp]
  unfold Air.get_absorption
  dsimp only
  rw [hlogb]
  have hff : 0 ≤ f * f := mul_self_nonneg f
  set f2 := f * f with hf2
  constructor <;> positivity

/-- Claim C7: for every physically valid temperature, humidity and
pressure, and every frequency array of positive entries, every entry of
the absorption arrays an `Air` computes (1/m and dB/m) is
nonnegative. -/
theorem air_absorption_nonneg :
    ∀ (t h a : ℝ) (fs : List ℝ) (air : Air),
      0 ≤ t → t ≤ 50 → 0 ≤ h → h ≤ 100 → 90000 ≤ a → a ≤ 115000 →
      (∀ f ∈ fs, 0 < f) →
      Air.init t h a fs = .ok air →
      (∀ x ∈ air.absorb, 0 ≤ x) ∧ (∀ x ∈ air.absorb_dB, 0 ≤ x) := by
  intro t h a fs air ht1 ht2 hh1 hh2 ha1 ha2 hf hok
  have hair : Air.mk t h a fs (fs.map (fun f => (Air.get_absorption t h a f).1))
      (fs.map (fun f => (Air.get_absorption t h a f).2)) = air := by
    unfold Air.init at hok
    rw [if_neg (by push_neg; exact ⟨ht1, ht2⟩), if_neg (by push_neg; exact ⟨hh1, hh2⟩),
      if_neg (by push_neg; exact ⟨ha1, ha2⟩)] at hok
    injection hok
  subst hair
  constructor
  · intro x hx
    simp only [List.mem_map] at hx
    obtain ⟨f, _, rfl⟩ := hx
    exact (get_absorption_nonneg t h a f ht1 hh1 (by linarith)).1
  · intro x hx
    simp only [List.mem_map] at hx
    obtain ⟨f, _, rfl⟩ := hx
    exact (get_absorption_nonneg t h a f ht1 hh1 (by linarith)).2

/-- Witness for claim C7 at 20 °C, 50 %, 101325 Pa and 1000 Hz. -/
theorem air_absorption_nonneg_witness :
    0 ≤ (Air.get_absorption 20 50 101325 1000).1 ∧
    0 ≤ (Air.get_absorption 20 50 101325 1000).2 := by
  have hok : Air.init 20 50 101325 [1000] = .ok
      { temp := 20, hum := 50, atm := 101325, freqs := [1000]
        absorb := [(1000 : ℝ)].map fun f => (Air.get_absorption 20 50 101325 f).1
        absorb_dB := [(1000 : ℝ)].map fun f => (Air.get_absorption 20 50 101325 f).2 } := by
    unfold Air.init
    rw [if_neg (by norm_num), if_neg (by norm_num), if_neg (by norm_num)]
  have H := air_absorption_nonneg 20 50 101325 [1000] _ (by norm_num) (by norm_num)
    (by norm_num) (by norm_num) (by norm_num) (by norm_num)
    (by intro f hf; rw [List.mem_singleton] at hf; rw [hf]; norm_num) hok
  have hmem : (1000 : ℝ) ∈ [(1000 : ℝ)] := by simp
  exact ⟨H.1 _ (List.mem_map_of_mem _ hmem), H.2 _ (List.mem_map_of_mem _ hmem)⟩

/-- Rounding to one decimal moves a dB value by at most 0.05. -/
theorem dB_round_sub_abs (x : ℝ) : |dB_round x - x| ≤ 1 / 20 := by
  unfold dB_round
  have h := abs_sub_round (10 * x)
  rw [abs_sub_comm] at h
  have heq : ((round (10 * x) : ℤ) : ℝ) / 10 - x
      = (((round (10 * x) : ℤ) : ℝ) - 10 * x) / 10 := by
    ring
  rw [heq, abs_div, show |(10 : ℝ)| = 10 by norm_num]
  linarith

/-- The generic shape of the three level round-trips: with reference
value `ref` and scale `s` (20 for pressure, 10 for power and
intensity), the unrounded trip is exact and the rounded trip lands
within a factor `10 ^ (1 / (20 s))` either way. -/
theorem level_roundtrip_general (ref s x : ℝ) (href : 0 < ref) (hs : 0 < s) (hx : 0 < x) :
    ref * (10 : ℝ) ^ (s * Real.logb 10 (x / ref) / s) = x ∧
    (10 : ℝ) ^ (-(1 : ℝ) / (20 * s)) * x
      ≤ ref * (10 : ℝ) ^ (dB_round (s * Real.logb 10 (x / ref)) / s) ∧
    ref * (10 : ℝ) ^ (dB_round (s * Real.logb 10 (x / ref)) / s)
      ≤ (10 : ℝ) ^ ((1 : ℝ) / (20 * s)) * x := by
  have h10 : (0 : ℝ) < 10 := by norm_num
  have hxr : 0 < x / ref := div_pos hx href
  set L := s * Real.logb 10 (x / ref) with hL
  have hraw : L / s = Real.logb 10 (x / ref) := by
    rw [hL]
    field_simp
  have hbase : ref * (10 : ℝ) ^ (L / s) = x := by
    rw [hraw, Real.rpow_logb h10 (by norm_num) hxr]
    field_simp
  have hsplit : dB_round L / s = L / s + (dB_round L - L) / s := by
    ring
  have hpow : ref * (10 : ℝ) ^ (dB_round L / s) = x * (10 : ℝ) ^ ((dB_round L - L) / s) := by
    rw [hsplit, Real.rpow_add h10, ← mul_assoc, hbase]
  have hd := dB_round_sub_abs L
  have hdl : -(1 : ℝ) / 20 ≤ dB_round L - L := by
    have := (abs_le.mp hd).1
    linarith
  have hdu : dB_round L - L ≤ 1 / 20 := (abs_le.mp hd).2
  have hel : -(1 : ℝ) / (20 * s) ≤ (dB_round L - L) / s := by
    rw [show -(1 : ℝ) / (20 * s) = -(1 : ℝ) / 20 / s by ring]
    gcongr
  have heu : (dB_round L - L) / s ≤ (1 : ℝ) / (20 * s) := by
    rw [show (1 : ℝ) / (20 * s) = (1 : ℝ) / 20 / s by ring]
    gcongr
  refine ⟨hbase, ?_, ?_⟩
  · rw [hpow, mul_comm ((10 : ℝ) ^ (-(1 : ℝ) / (20 * s))) x]
    exact mul_le_mul_of_nonneg_left
      (Real.rpow_le_rpow_of_exponent_le (by norm_num) hel) hx.le
  · rw [hpow, mul_comm ((10 : ℝ) ^ ((1 : ℝ) / (20 * s))) x]
    exact mul_le_mul_of_nonneg_left
      (Real.rpow_le_rpow_of_exponent_le (by norm_num) heu) hx.le

/-- Claim C2, amended: the undecorated conversion bodies are exact
mutual inverses on positive arguments, but the exported forward
functions always round to one decimal — there is no opt-out — so the
implemented round-trips only land within a factor `10 ^ (1/400)`
(pressure) or `10 ^ (1/200)` (power, intensity) of the input. -/
theorem level_roundtrips :
    ∀ p P I : ℝ, 0 < p → 0 < P → 0 < I →
      pressure_from_spl (spl_from_pressure_body p) = p ∧
      power_from_swl (swl_from_power_body P) = P ∧
      intensity_from_sil (sil_from_intensity_body I) = I ∧
      spl_from_pressure p = dB_round (spl_from_pressure_body p) ∧
      swl_from_power P = dB_round (swl_from_power_body P) ∧
      sil_from_intensity I = dB_round (sil_from_intensity_body I) ∧
      (10 : ℝ) ^ (-(1 : ℝ) / 400) * p ≤ pressure_from_spl (spl_from_pressure p) ∧
      pressure_from_spl (spl_from_pressure p) ≤ (10 : ℝ) ^ ((1 : ℝ) / 400) * p ∧
      (10 : ℝ) ^ (-(1 : ℝ) / 200) * P ≤ power_from_swl (swl_from_power P) ∧
      power_from_swl (swl_from_power P) ≤ (10 : ℝ) ^ ((1 : ℝ) / 200) * P ∧
      (10 : ℝ) ^ (-(1 : ℝ) / 200) * I ≤ intensity_from_sil (sil_from_intensity I) ∧
      intensity_from_sil (sil_from_intensity I) ≤ (10 : ℝ) ^ ((1 : ℝ) / 200) * I := by
  intro p P I hp hP hI
  have Hp := level_roundtrip_general 2e-5 20 p (by norm_num) (by norm_num) hp
  have HP := level_roundtrip_general 1e-12 10 P (by norm_num) (by norm_num) hP
  have HI := level_roundtrip_general 1e-12 10 I (by norm_num) (by norm_num) hI
  have e400 : (20 : ℝ) * 20 = 400 := by norm_num
  have e200 : (20 : ℝ) * 10 = 200 := by norm_num
  rw [e400] at Hp
  rw [e200] at HP
  rw [e200] at HI
  exact ⟨Hp.1, HP.1, HI.1, rfl, rfl, rfl, Hp.2.1, Hp.2.2, HP.2.1, HP.2.2, HI.2.1, HI.2.2⟩

/-- Witness for claim C2 at the concrete inputs p = P = I = 1. -/
theorem level_roundtrips_witness :
    pressure_from_spl (spl_from_pressure_body 1) = 1 ∧
    power_from_swl (swl_from_power_body 1) = 1 ∧
    intensity_from_sil (sil_from_intensity_body 1) = 1 ∧
    spl_from_pressure 1 = dB_round (spl_from_pressure_body 1) ∧
    swl_from_power 1 = dB_round (swl_from_power_body 1) ∧
    sil_from_intensity 1 = dB_round (sil_from_intensity_body 1) ∧
    (10 : ℝ) ^ (-(1 : ℝ) / 400) * 1 ≤ pressure_from_spl (spl_from_pressure 1) ∧
    pressure_from_spl (spl_from_pressure 1) ≤ (10 : ℝ) ^ ((1 : ℝ) / 400) * 1 ∧
    (10 : ℝ) ^ (-(1 : ℝ) / 200) * 1 ≤ power_from_swl (swl_from_power 1) ∧
    power_from_swl (swl_from_power 1) ≤ (10 : ℝ) ^ ((1 : ℝ) / 200) * 1 ∧
    (10 : ℝ) ^ (-(1 : ℝ) / 200) * 1 ≤ intensity_from_sil (sil_from_intensity 1) ∧
    intensity_from_sil (sil_from_intensity 1) ≤ (10 : ℝ) ^ ((1 : ℝ) / 200) * 1 :=
  level_roundtrips 1 1 1 one_pos one_pos one_pos

/-- Claim C2, counterexample: at the pressure
`p = 2e-5 * 10 ^ (3/2000)` the exported (always rounded) forward
conversion gives SPL 0.0, so the round-trip lands at `2e-5`, a relative
error of about 0.345 % — far above the claimed 1e-6. -/
theorem pressure_roundtrip_tolerance_cx :
    ¬ |pressure_from_spl (spl_from_pressure (2e-5 * (10 : ℝ) ^ ((3 : ℝ) / 2000)))
        - 2e-5 * (10 : ℝ) ^ ((3 : ℝ) / 2000)|
      ≤ 1e-6 * (2e-5 * (10 : ℝ) ^ ((3 : ℝ) / 2000)) := by
  have h10 : (0 : ℝ) < 10 := by norm_num
  set t := (10 : ℝ) ^ ((3 : ℝ) / 2000) with ht
  have harg : (2e-5 * t) / 2e-5 = t := by
    field_simp
  have hbody : spl_from_pressure_body (2e-5 * t) = 20 * (3 / 2000) := by
    unfold spl_from_pressure_body
    rw [harg, ht, Real.logb_rpow h10 (by norm_num)]
  have hspl : spl_from_pressure (2e-5 * t) = 0 := by
    unfold spl_from_pressure
    rw [hbody]
    unfold dB_round
    rw [show (10 : ℝ) * (20 * (3 / 2000)) = 3 / 10 by norm_num, round_eq]
    norm_num
  have hback : pressure_from_spl 0 = 2e-5 := by
    unfold pressure_from_spl
    rw [show (0 : ℝ) / 20 = 0 by norm_num, Real.rpow_zero, mul_one]
  rw [hspl, hback]
  have hln : (2 : ℝ) < Real.log 10 := by
    rw [Real.lt_log_iff_exp_lt h10]
    have h1 := Real.exp_one_lt_d9
    have h2 : Real.exp 2 = Real.exp 1 * Real.exp 1 := by
      rw [← Real.exp_add]
      norm_num
    nlinarith [Real.exp_pos 1]
  have htlow : 1 + 3 / 1000 ≤ t := by
    rw [ht, Real.rpow_def_of_pos h10]
    have h3 := Real.add_one_le_exp (Real.log 10 * ((3 : ℝ) / 2000))
    nlinarith
  have hthigh : t ≤ 10 := by
    rw [ht]
    calc (10 : ℝ) ^ ((3 : ℝ) / 2000) ≤ (10 : ℝ) ^ (1 : ℝ) :=
        Real.rpow_le_rpow_of_exponent_le (by norm_num) (by norm_num)
      _ = 10 := Real.rpow_one 10
  intro hcon
  rw [abs_of_nonpos (by nlinarith)] at hcon
  linarith

end

end SoundReinforcements
